import Mathlib

/-!
Verification of the Planet Data API quickstart notebook
(src/notebooks/search_and_download_quickstart.ipynb).

The notebook builds a geospatial search filter, issues a search request,
selects a result, checks an asset activation status and extracts a download
link.  JSON values are embedded as an inductive type with rational numbers;
a failing Python dictionary or list lookup (KeyError / IndexError) is
modelled as `none`.  The `waitUntilActive` poller of the design document has
no counterpart in the notebook and is modelled from the specification text.
-/

/-- A JSON value: strings, numbers (rationals), booleans, null, arrays and
objects (ordered association lists, as Python dict literals are). -/
inductive Json where
  | str : String → Json
  | num : ℚ → Json
  | bool : Bool → Json
  | null : Json
  | arr : List Json → Json
  | obj : List (String × Json) → Json

/-- Association-list lookup on object fields: the first binding of the key,
mirroring Python dictionary access d[k]; `none` models a KeyError. -/
def lookupField : List (String × Json) → String → Option Json
  | [], _ => none
  | (k, v) :: rest, key => if k = key then some v else lookupField rest key

/-- Python d[k] on a JSON value: defined on objects only. -/
def Json.lookup : Json → String → Option Json
  | .obj fields, key => lookupField fields key
  | _, _ => none

/-- The keys of a JSON object, in order. -/
def Json.keys : Json → List String
  | .obj fields => fields.map Prod.fst
  | _ => []

/-- cell-9: the Stockton, CA bounding box drawn via geojson.io. -/
def geojson_geometry : Json :=
  Json.obj
    [("type", Json.str "Polygon"),
     ("coordinates", Json.arr
       [Json.arr
         [Json.arr [Json.num (-121.59290313720705), Json.num 37.93444993515032],
          Json.arr [Json.num (-121.27017974853516), Json.num 37.93444993515032],
          Json.arr [Json.num (-121.27017974853516), Json.num 38.065932950547484],
          Json.arr [Json.num (-121.59290313720705), Json.num 38.065932950547484],
          Json.arr [Json.num (-121.59290313720705), Json.num 37.93444993515032]]])]

/-- cell-12: images that overlap with the AOI. -/
def geometry_filter : Json :=
  Json.obj
    [("type", Json.str "GeometryFilter"),
     ("field_name", Json.str "geometry"),
     ("config", geojson_geometry)]

/-- cell-12: images acquired within a date range. -/
def date_range_filter : Json :=
  Json.obj
    [("type", Json.str "DateRangeFilter"),
     ("field_name", Json.str "acquired"),
     ("config", Json.obj
       [("gte", Json.str "2016-08-31T00:00:00.000Z"),
        ("lte", Json.str "2016-09-01T00:00:00.000Z")])]

/-- cell-12: only images which have below 50 percent cloud coverage. -/
def cloud_cover_filter : Json :=
  Json.obj
    [("type", Json.str "RangeFilter"),
     ("field_name", Json.str "cloud_cover"),
     ("config", Json.obj [("lte", Json.num 0.5)])]

/-- The conjunction-of-predicates constructor used by cell-12: a tagged
AndFilter value whose config is the given list of child filters. -/
def andFilter (children : List Json) : Json :=
  Json.obj [("type", Json.str "AndFilter"), ("config", Json.arr children)]

/-- cell-12: the combined geo, date and cloud filter. -/
def combined_filter : Json :=
  Json.obj
    [("type", Json.str "AndFilter"),
     ("config", Json.arr [geometry_filter, date_range_filter, cloud_cover_filter])]

/-- cell-15: the selected item type. -/
def item_type : String := "PSScene"

/-- cell-15: the API request object posted to quick-search. -/
def search_request : Json :=
  Json.obj
    [("item_types", Json.arr [Json.str item_type]),
     ("filter", combined_filter)]

/-- cell-4: the API key is the PL_API_KEY environment variable when that is
set and non-empty (Python string truthiness), else a hardcoded literal. -/
def API_KEY (env : Option String) : String :=
  if env.getD "" ≠ "" then env.getD ""
  else "PLAKcaa4ce6cd0464a058d71353bf2bca50b"

/-- HTTP method of a request issued by the notebook. -/
inductive Method where
  | get
  | post

/-- An HTTP request as the notebook issues it: method, URL, basic-auth
credentials (username, password) and an optional JSON body. -/
structure Request where
  method : Method
  url : String
  auth : String × String
  body : Option Json

/-- cell-15: the POST of the search request to the quick-search endpoint,
authenticated with HTTPBasicAuth(API_KEY, empty password). -/
def search_result_request (env : Option String) : Request :=
  { method := Method.post,
    url := "https://api.planet.com/data/v1/quick-search",
    auth := (API_KEY env, ""),
    body := some search_request }

/-- cell-19: the assets URL built by string formatting from the item type
and the selected image id. -/
def id0_url (theItemType theId : String) : String :=
  "https://api.planet.com/data/v1/item-types/" ++ theItemType ++ "/items/" ++
    theId ++ "/assets"

/-- cell-19: the GET of the asset metadata for the selected image. -/
def assets_request (env : Option String) (theId : String) : Request :=
  { method := Method.get,
    url := id0_url item_type theId,
    auth := (API_KEY env, ""),
    body := none }

/-- cell-23: the GET of the activation link. -/
def activate_request (env : Option String) (activation_link : String) : Request :=
  { method := Method.get,
    url := activation_link,
    auth := (API_KEY env, ""),
    body := none }

/-- cell-25: the GET of the self link that reads the activation status. -/
def activation_status_request (env : Option String) (self_link : String) : Request :=
  { method := Method.get,
    url := self_link,
    auth := (API_KEY env, ""),
    body := none }

/-- All HTTP requests issued by the notebook, in program order. -/
def notebookRequests (env : Option String)
    (theId activation_link self_link : String) : List Request :=
  [search_result_request env,
   assets_request env theId,
   activate_request env activation_link,
   activation_status_request env self_link]

/-- cell-17: extract image IDs only, one lookup of "id" per feature, in the
order the service returned the features. -/
def image_ids (features : List Json) : List (Option Json) :=
  features.map (fun feature => Json.lookup feature "id")

/-- cell-21: the status check result.json()["ortho_analytic_4b"]["status"];
`none` models the uncaught KeyError the notebook output records. -/
def asset_status_lookup (assets : Json) : Option Json :=
  (Json.lookup assets "ortho_analytic_4b").bind (fun a => Json.lookup a "status")

/-- cell-27: the download link is read straight off the "location" field of
the activation status response. -/
def download_link (activation_status_json : Json) : Option Json :=
  Json.lookup activation_status_json "location"

/-- Modelled from the spec: the GET self-link response carries the current
status and, once active, a "location" field holding the temporary retrieval
URL (section 6 of the design document). -/
def statusResponse (status location : String) : Json :=
  Json.obj [("status", Json.str status), ("location", Json.str location)]

/-- Modelled from the spec: the numeric-range predicate semantics — a value
satisfies a RangeFilter config carrying an "lte" bound when it is less than
or equal to that bound. -/
def rangeSatisfies (config : Json) (v : ℚ) : Bool :=
  match Json.lookup config "lte" with
  | some (Json.num b) => decide (v ≤ b)
  | _ => false

/-- The remote self-link endpoint, seen as the queue of JSON responses it
will return to successive GET requests. -/
structure SelfLinkServer where
  responses : List Json

/-- cell-25: the activation status check.  It issues exactly one GET of the
self link (consuming one server response) and reads its "status" field;
`none` means the server no longer answers. -/
def activation_status_cell (srv : SelfLinkServer) :
    Option (Option Json × SelfLinkServer) :=
  match srv.responses with
  | [] => none
  | r :: rest => some (Json.lookup r "status", SelfLinkServer.mk rest)

/-- An asset activation status, as listed in section 3 of the design
document. -/
inductive Status where
  | inactive
  | activating
  | active
  | failed
deriving DecidableEq

/-- An error a poll of the remote service can fail with (section 4.1). -/
inductive PollError where
  | notFound
  | auth
  | transient

/-- One response of the simulated remote service to a poll: either a status
(with the location URL and expiry it carries once active) or a failure. -/
inductive PollResponse where
  | ok (s : Status) (location : String) (expiry : ℕ)
  | failure (e : PollError)

/-- The status carried by a response, when it is not a failure. -/
def PollResponse.plainStatus : PollResponse → Option Status
  | .ok s _ _ => some s
  | .failure _ => none

/-- A short-lived URL plus expiry for downloading an active asset. -/
structure RetrievalHandle where
  url : String
  expiry : ℕ

/-- The outcome of waiting for activation: a retrieval handle or one of the
error kinds of section 7 of the design document. -/
inductive WaitOutcome where
  | ok (h : RetrievalHandle)
  | timeoutError
  | notFoundError
  | authError
  | transientError
  | activationFailedError

/-- The outcome propagating a poll failure. -/
def errOutcome : PollError → WaitOutcome
  | .notFound => .notFoundError
  | .auth => .authError
  | .transient => .transientError

/-- Modelled from the spec: the polling loop of waitUntilActive, at attempt
index k with the given number of attempts remaining.  It stops with a
handle on active, aborts on failed, propagates failures immediately, and
otherwise polls again; exhausting the attempts is a timeout. -/
def waitAux (server : ℕ → PollResponse) : ℕ → ℕ → WaitOutcome
  | _, 0 => .timeoutError
  | k, n + 1 =>
    match server k with
    | .failure e => errOutcome e
    | .ok .active location expiry => .ok (RetrievalHandle.mk location expiry)
    | .ok .failed _ _ => .activationFailedError
    | .ok .inactive _ _ => waitAux server (k + 1) n
    | .ok .activating _ _ => waitAux server (k + 1) n

/-- Modelled from the spec: waitUntilActive(asset, interval, maxAttempts)
of section 4.1 — the notebook contains no such loop.  The asset is
represented by the server's poll responses; the fixed interval only
suspends the caller between polls and has no observable effect here. -/
def waitUntilActive (server : ℕ → PollResponse) (interval maxAttempts : ℕ) :
    WaitOutcome :=
  waitAux server 0 maxAttempts

/-- A simulated server that is activating for two polls, then active. -/
def demoServerA : ℕ → PollResponse := fun k =>
  if k < 2 then PollResponse.ok Status.activating "" 0
  else PollResponse.ok Status.active "https://example.com/download" 3600

/-- A simulated server that never leaves activating. -/
def demoServerB : ℕ → PollResponse := fun _ =>
  PollResponse.ok Status.activating "" 0

/-- A simulated server that is activating once, then not found. -/
def demoServerC : ℕ → PollResponse := fun k =>
  if k = 0 then PollResponse.ok Status.activating "" 0
  else PollResponse.failure PollError.notFound

/-- The notebook's top-level bindings built by cells 9 to 15, each `none`
until its cell has run (a Python NameError reads an unbound name). -/
structure NotebookState where
  geojson_geometry : Option Json
  geometry_filter : Option Json
  date_range_filter : Option Json
  cloud_cover_filter : Option Json
  combined_filter : Option Json
  search_request : Option Json

/-- The state before any cell has run. -/
def initState : NotebookState :=
  NotebookState.mk none none none none none none

/-- cell-9: bind geojson_geometry to the AOI literal. -/
def step_geojson_geometry (s : NotebookState) : NotebookState :=
  { s with geojson_geometry := some geojson_geometry }

/-- cell-12, first statement: build geometry_filter from the value bound to
geojson_geometry; fails when that name is unbound. -/
def step_geometry_filter (s : NotebookState) : Option NotebookState :=
  match s.geojson_geometry with
  | none => none
  | some g =>
    let gf := Json.obj
      [("type", Json.str "GeometryFilter"),
       ("field_name", Json.str "geometry"),
       ("config", g)]
    some { s with geometry_filter := some gf }

/-- cell-12, second statement: build date_range_filter from literals. -/
def step_date_range_filter (s : NotebookState) : NotebookState :=
  { s with date_range_filter := some date_range_filter }

/-- cell-12, third statement: build cloud_cover_filter from literals. -/
def step_cloud_cover_filter (s : NotebookState) : NotebookState :=
  { s with cloud_cover_filter := some cloud_cover_filter }

/-- cell-12, last statement: combine the three child filters, referencing
the very values bound to their names. -/
def step_combined_filter (s : NotebookState) : Option NotebookState :=
  match s.geometry_filter, s.date_range_filter, s.cloud_cover_filter with
  | some g, some d, some c =>
    let cf := Json.obj
      [("type", Json.str "AndFilter"),
       ("config", Json.arr [g, d, c])]
    some { s with combined_filter := some cf }
  | _, _, _ => none

/-- cell-15: build the search request body from the value bound to
combined_filter. -/
def step_search_request (s : NotebookState) : Option NotebookState :=
  match s.combined_filter with
  | none => none
  | some cf =>
    let sr := Json.obj
      [("item_types", Json.arr [Json.str item_type]),
       ("filter", cf)]
    some { s with search_request := some sr }

/-- Running cells 9 to 15 in program order. -/
def notebookRun : Option NotebookState :=
  (step_geometry_filter (step_geojson_geometry initState)).bind fun s1 =>
    (step_combined_filter
      (step_cloud_cover_filter (step_date_range_filter s1))).bind fun s2 =>
      step_search_request s2

/-- The state after cell-9. -/
def stateA : NotebookState := step_geojson_geometry initState

/-- The state after the first statement of cell-12. -/
def stateB : NotebookState :=
  NotebookState.mk (some geojson_geometry) (some geometry_filter)
    none none none none

/-- The state after the third statement of cell-12. -/
def stateC : NotebookState :=
  NotebookState.mk (some geojson_geometry) (some geometry_filter)
    (some date_range_filter) (some cloud_cover_filter) none none

/-- The state after cell-12. -/
def stateD : NotebookState :=
  NotebookState.mk (some geojson_geometry) (some geometry_filter)
    (some date_range_filter) (some cloud_cover_filter) (some combined_filter)
    none

/-- The state after cell-15. -/
def stateE : NotebookState :=
  NotebookState.mk (some geojson_geometry) (some geometry_filter)
    (some date_range_filter) (some cloud_cover_filter) (some combined_filter)
    (some search_request)

theorem plainStatus_eq_activating {r : PollResponse}
    (h : r.plainStatus = some Status.activating) :
    ∃ loc exp, r = PollResponse.ok Status.activating loc exp := by
  cases r with
  | ok s loc exp =>
    refine ⟨loc, exp, ?_⟩
    simp [PollResponse.plainStatus] at h
    rw [h]
  | failure e => simp [PollResponse.plainStatus] at h

theorem waitAux_ok_iff (server : ℕ → PollResponse) (n : ℕ) :
    ∀ k, (∀ j, j < n → (server (k + j)).plainStatus = some Status.activating ∨
            (server (k + j)).plainStatus = some Status.active) →
    ((∃ hd, waitAux server k n = WaitOutcome.ok hd) ↔
      ∃ j, j < n ∧ (server (k + j)).plainStatus = some Status.active) := by
  induction n with
  | zero =>
    intro k _
    constructor
    · rintro ⟨hd, hok⟩
      simp [waitAux] at hok
    · rintro ⟨j, hj, _⟩
      omega
  | succ n ih =>
    intro k h
    have h0 := h 0 (Nat.succ_pos n)
    rw [Nat.add_zero] at h0
    cases hk : server k with
    | failure e =>
      rw [hk] at h0
      simp [PollResponse.plainStatus] at h0
    | ok s loc exp =>
      rw [hk] at h0
      simp [PollResponse.plainStatus] at h0
      cases s with
      | inactive => rcases h0 with h0 | h0 <;> exact absurd h0 (by decide)
      | failed => rcases h0 with h0 | h0 <;> exact absurd h0 (by decide)
      | active =>
        constructor
        · intro _
          refine ⟨0, Nat.succ_pos n, ?_⟩
          rw [Nat.add_zero, hk]
          rfl
        · intro _
          refine ⟨RetrievalHandle.mk loc exp, ?_⟩
          simp [waitAux, hk]
      | activating =>
        have hstep : waitAux server k (n + 1) = waitAux server (k + 1) n := by
          simp [waitAux, hk]
        have hshift : ∀ j, j < n →
            (server (k + 1 + j)).plainStatus = some Status.activating ∨
            (server (k + 1 + j)).plainStatus = some Status.active := by
          intro j hj
          have := h (j + 1) (by omega)
          rwa [show k + (j + 1) = k + 1 + j by omega] at this
        rw [hstep, ih (k + 1) hshift]
        constructor
        · rintro ⟨j, hj, hp⟩
          exact ⟨j + 1, by omega,
            by rwa [show k + (j + 1) = k + 1 + j by omega]⟩
        · rintro ⟨j, hj, hp⟩
          cases j with
          | zero =>
            rw [Nat.add_zero, hk] at hp
            simp [PollResponse.plainStatus] at hp
          | succ j =>
            exact ⟨j, by omega,
              by rwa [show k + 1 + j = k + (j + 1) by omega]⟩

theorem waitAux_timeout (server : ℕ → PollResponse) (n : ℕ) :
    ∀ k, (∀ j, j < n → (server (k + j)).plainStatus = some Status.activating) →
    waitAux server k n = WaitOutcome.timeoutError := by
  induction n with
  | zero =>
    intro k _
    rfl
  | succ n ih =>
    intro k h
    have h0 := h 0 (Nat.succ_pos n)
    rw [Nat.add_zero] at h0
    obtain ⟨loc, exp, hk⟩ := plainStatus_eq_activating h0
    have hstep : waitAux server k (n + 1) = waitAux server (k + 1) n := by
      simp [waitAux, hk]
    rw [hstep]
    refine ih (k + 1) (fun j hj => ?_)
    have := h (j + 1) (by omega)
    rwa [show k + (j + 1) = k + 1 + j by omega] at this

theorem waitAux_failure (server : ℕ → PollResponse) (i : ℕ) :
    ∀ (e : PollError) (n k : ℕ), i < n →
    (∀ j, j < i → (server (k + j)).plainStatus = some Status.activating) →
    server (k + i) = PollResponse.failure e →
    waitAux server k n = errOutcome e := by
  induction i with
  | zero =>
    intro e n k hn hact he
    rw [Nat.add_zero] at he
    cases n with
    | zero => omega
    | succ m => simp [waitAux, he]
  | succ i ih =>
    intro e n k hn hact he
    cases n with
    | zero => omega
    | succ m =>
      have h0 := hact 0 (Nat.succ_pos i)
      rw [Nat.add_zero] at h0
      obtain ⟨loc, exp, hk⟩ := plainStatus_eq_activating h0
      have hstep : waitAux server k (m + 1) = waitAux server (k + 1) m := by
        simp [waitAux, hk]
      rw [hstep]
      refine ih e m (k + 1) (by omega) (fun j hj => ?_) ?_
      · have := hact (j + 1) (by omega)
        rwa [show k + (j + 1) = k + 1 + j by omega] at this
      · rwa [show k + 1 + i = k + (i + 1) by omega]

/-- Claim C1: on the empty assets response, the notebook's status check for
the "ortho_analytic_4b" asset is an uncaught key-lookup fault (the lookup of
the asset name itself already yields nothing), not an explicit NotFoundError
value — there is no error-value channel in the code at all. -/
theorem asset_status_lookup_empty_crashes :
    asset_status_lookup (Json.obj []) = none ∧
    Json.lookup (Json.obj []) "ortho_analytic_4b" = none :=
  ⟨rfl, rfl⟩

/-- Claim C2, counterexample: with the self-link server answering
activating, activating, active in turn, the notebook's status cell consumes
exactly one response and reports activating, not active — it does not keep
polling until the status flips. -/
theorem activation_status_cell_counterexample :
    activation_status_cell (SelfLinkServer.mk
      [Json.obj [("status", Json.str "activating")],
       Json.obj [("status", Json.str "activating")],
       Json.obj [("status", Json.str "active")]]) =
      some (some (Json.str "activating"), SelfLinkServer.mk
        [Json.obj [("status", Json.str "activating")],
         Json.obj [("status", Json.str "active")]]) ∧
    Json.str "activating" ≠ Json.str "active" := by
  refine ⟨rfl, ?_⟩
  intro h
  injection h with h2
  exact absurd h2 (by decide)

/-- Claim C2 (amended): the source queries the activation status exactly
once per execution of the status cell — a single GET of the self link that
consumes one server response and reports that response's "status" field;
there is no retry loop in the code. -/
theorem activation_status_cell_single (srv : SelfLinkServer)
    (st : Option Json) (rest : SelfLinkServer)
    (h : activation_status_cell srv = some (st, rest)) :
    ∃ r, srv.responses = r :: rest.responses ∧ st = Json.lookup r "status" := by
  cases srv with
  | mk responses =>
    cases responses with
    | nil => simp [activation_status_cell] at h
    | cons r rest2 =>
      simp [activation_status_cell] at h
      obtain ⟨h1, h2⟩ := h
      exact ⟨r, by rw [← h2], h1.symm⟩

/-- Witness for the amended claim C2, at a one-response server. -/
theorem activation_status_cell_single_witness :
    ∃ r, (SelfLinkServer.mk [Json.obj [("status", Json.str "active")]]).responses =
        r :: (SelfLinkServer.mk ([] : List Json)).responses ∧
      (some (Json.str "active") : Option Json) = Json.lookup r "status" :=
  activation_status_cell_single
    (SelfLinkServer.mk [Json.obj [("status", Json.str "active")]])
    (some (Json.str "active")) (SelfLinkServer.mk []) rfl

/-- Claim C3: waitUntilActive returns a retrieval handle iff the simulated
server reaches status active within maxAttempts polls (over runs whose
polls all answer a plain activating or active status); exhausting the
attempts while the status remains activating is a TimeoutError; and a
NotFoundError / AuthError / TransientError response is propagated the
moment it occurs, whatever the later polls would have answered. -/
theorem waitUntilActive_correct (server : ℕ → PollResponse)
    (interval maxAttempts : ℕ) :
    ((∀ k, k < maxAttempts →
        (server k).plainStatus = some Status.activating ∨
        (server k).plainStatus = some Status.active) →
      ((∃ hd, waitUntilActive server interval maxAttempts = WaitOutcome.ok hd) ↔
        ∃ k, k < maxAttempts ∧ (server k).plainStatus = some Status.active)) ∧
    ((∀ k, k < maxAttempts → (server k).plainStatus = some Status.activating) →
      waitUntilActive server interval maxAttempts = WaitOutcome.timeoutError) ∧
    (∀ i e, i < maxAttempts →
      (∀ j, j < i → (server j).plainStatus = some Status.activating) →
      server i = PollResponse.failure e →
      waitUntilActive server interval maxAttempts = errOutcome e) := by
  refine ⟨?_, ?_, ?_⟩
  · intro h
    have hmain := waitAux_ok_iff server maxAttempts 0
      (fun j hj => by simpa using h j hj)
    simpa [waitUntilActive] using hmain
  · intro h
    have hmain := waitAux_timeout server maxAttempts 0
      (fun j hj => by simpa using h j hj)
    simpa [waitUntilActive] using hmain
  · intro i e hi hact he
    have hmain := waitAux_failure server i e maxAttempts 0 hi
      (fun j hj => by simpa using hact j hj) (by simpa using he)
    simpa [waitUntilActive] using hmain

/-- Witness for claim C3 at three concrete simulated servers. -/
theorem waitUntilActive_correct_witness :
    ((∃ hd, waitUntilActive demoServerA 5 3 = WaitOutcome.ok hd) ↔
      ∃ k, k < 3 ∧ (demoServerA k).plainStatus = some Status.active) ∧
    waitUntilActive demoServerB 5 3 = WaitOutcome.timeoutError ∧
    waitUntilActive demoServerC 5 3 = errOutcome PollError.notFound :=
  ⟨(waitUntilActive_correct demoServerA 5 3).1 (by decide),
   (waitUntilActive_correct demoServerB 5 3).2.1 (by decide),
   (waitUntilActive_correct demoServerC 5 3).2.2 1 PollError.notFound
     (by decide) (by decide) rfl⟩

/-- Claim C4: the combined filter is a tagged AndFilter value whose config
is exactly the list of the three child filters in construction order, the
children keeping their GeometryFilter / DateRangeFilter / RangeFilter types
unchanged; and for every list of child predicates the conjunction
constructor preserves the children — hence their order and types. -/
theorem combined_filter_serialization :
    Json.lookup combined_filter "type" = some (Json.str "AndFilter") ∧
    Json.lookup combined_filter "config" =
      some (Json.arr [geometry_filter, date_range_filter, cloud_cover_filter]) ∧
    Json.lookup geometry_filter "type" = some (Json.str "GeometryFilter") ∧
    Json.lookup date_range_filter "type" = some (Json.str "DateRangeFilter") ∧
    Json.lookup cloud_cover_filter "type" = some (Json.str "RangeFilter") ∧
    combined_filter =
      andFilter [geometry_filter, date_range_filter, cloud_cover_filter] ∧
    ∀ children : List Json,
      Json.lookup (andFilter children) "config" = some (Json.arr children) :=
  ⟨rfl, rfl, rfl, rfl, rfl, rfl, fun _ => rfl⟩

/-- Claim C5: the download URL the notebook uses is read off the "location"
field of the activation status response unchanged — for every status and
every server-provided location the extracted link is exactly that
location. -/
theorem download_link_is_location (status location : String) :
    download_link (statusResponse status location) = some (Json.str location) := by
  simp [download_link, statusResponse, Json.lookup, lookupField]

/-- Claim C6: every HTTP request the notebook issues carries basic auth
with the API key as username and the empty string as password, and the key
is the PL_API_KEY environment value when set and non-empty, else the
hardcoded literal fallback. -/
theorem notebook_requests_auth (env : Option String)
    (theId activation_link self_link : String) :
    (∀ r ∈ notebookRequests env theId activation_link self_link,
        r.auth = (API_KEY env, "")) ∧
    (∀ v : String, v ≠ "" → API_KEY (some v) = v) ∧
    API_KEY (some "") = "PLAKcaa4ce6cd0464a058d71353bf2bca50b" ∧
    API_KEY none = "PLAKcaa4ce6cd0464a058d71353bf2bca50b" := by
  refine ⟨?_, ?_, rfl, rfl⟩
  · intro r hr
    simp [notebookRequests] at hr
    rcases hr with h | h | h | h <;> subst h <;> rfl
  · intro v hv
    simp [API_KEY, hv]

/-- Witness for claim C6 at a concrete environment and request. -/
theorem notebook_requests_auth_witness :
    (search_result_request (some "my-key")).auth = (API_KEY (some "my-key"), "") ∧
    API_KEY (some "my-key") = "my-key" :=
  ⟨(notebook_requests_auth (some "my-key") "id" "act" "self").1
      (search_result_request (some "my-key")) (List.mem_cons_self _ _),
   (notebook_requests_auth (some "my-key") "id" "act" "self").2.1 "my-key"
      (by decide)⟩

/-- Claim C7: the search is a POST whose body has exactly the keys
item_types and filter, holding the singleton PSScene list and the combined
filter respectively, and image-ID extraction consumes the returned features
in their order: position i of image_ids is the id of feature i. -/
theorem search_request_body_and_order :
    Json.keys search_request = ["item_types", "filter"] ∧
    Json.lookup search_request "item_types" =
      some (Json.arr [Json.str "PSScene"]) ∧
    Json.lookup search_request "filter" = some combined_filter ∧
    (∀ env, (search_result_request env).method = Method.post ∧
      (search_result_request env).url =
        "https://api.planet.com/data/v1/quick-search" ∧
      (search_result_request env).body = some search_request) ∧
    ∀ (features : List Json) (i : ℕ),
      (image_ids features).get? i =
        (features.get? i).map (fun f => Json.lookup f "id") := by
  refine ⟨rfl, rfl, rfl, fun env => ⟨rfl, rfl, rfl⟩, ?_⟩
  intro features i
  simp [image_ids]

/-- Claim C8: the filter values are never mutated after construction — each
later construction step of cells 9 to 15 leaves every earlier binding
(the AOI geometry and each child filter) unchanged, the combined filter's
config holds the very child values bound in the state, and the full run
ends with every binding still equal to the value originally built for it. -/
theorem filters_immutable :
    (∀ s t, step_geometry_filter s = some t →
        t.geojson_geometry = s.geojson_geometry) ∧
    (∀ s, (step_date_range_filter s).geojson_geometry = s.geojson_geometry ∧
        (step_date_range_filter s).geometry_filter = s.geometry_filter) ∧
    (∀ s, (step_cloud_cover_filter s).geojson_geometry = s.geojson_geometry ∧
        (step_cloud_cover_filter s).geometry_filter = s.geometry_filter ∧
        (step_cloud_cover_filter s).date_range_filter = s.date_range_filter) ∧
    (∀ s t g d c, s.geometry_filter = some g → s.date_range_filter = some d →
        s.cloud_cover_filter = some c → step_combined_filter s = some t →
        t.geojson_geometry = s.geojson_geometry ∧
        t.geometry_filter = s.geometry_filter ∧
        t.date_range_filter = s.date_range_filter ∧
        t.cloud_cover_filter = s.cloud_cover_filter ∧
        t.combined_filter = some (andFilter [g, d, c])) ∧
    (∀ s t cf, s.combined_filter = some cf → step_search_request s = some t →
        t.geojson_geometry = s.geojson_geometry ∧
        t.geometry_filter = s.geometry_filter ∧
        t.date_range_filter = s.date_range_filter ∧
        t.cloud_cover_filter = s.cloud_cover_filter ∧
        t.combined_filter = s.combined_filter) ∧
    notebookRun = some stateE := by
  refine ⟨?_, ?_, ?_, ?_, ?_, rfl⟩
  · intro s t h
    cases hg : s.geojson_geometry with
    | none => simp [step_geometry_filter, hg] at h
    | some g =>
      simp [step_geometry_filter, hg] at h
      rw [← h]
  · intro s
    exact ⟨rfl, rfl⟩
  · intro s
    exact ⟨rfl, rfl, rfl⟩
  · intro s t g d c hg hd hc h
    simp [step_combined_filter, hg, hd, hc] at h
    rw [← h]
    exact ⟨rfl, hg.symm, hd.symm, hc.symm, rfl⟩
  · intro s t cf hcf h
    simp [step_search_request, hcf] at h
    rw [← h]
    exact ⟨rfl, rfl, rfl, rfl, hcf.symm⟩

/-- Witness for claim C8 along the states of the notebook's actual run. -/
theorem filters_immutable_witness :
    stateB.geojson_geometry = stateA.geojson_geometry ∧
    (stateD.geojson_geometry = stateC.geojson_geometry ∧
     stateD.geometry_filter = stateC.geometry_filter ∧
     stateD.date_range_filter = stateC.date_range_filter ∧
     stateD.cloud_cover_filter = stateC.cloud_cover_filter ∧
     stateD.combined_filter =
       some (andFilter [geometry_filter, date_range_filter, cloud_cover_filter])) ∧
    (stateE.geojson_geometry = stateD.geojson_geometry ∧
     stateE.geometry_filter = stateD.geometry_filter ∧
     stateE.date_range_filter = stateD.date_range_filter ∧
     stateE.cloud_cover_filter = stateD.cloud_cover_filter ∧
     stateE.combined_filter = stateD.combined_filter) :=
  ⟨filters_immutable.1 stateA stateB rfl,
   filters_immutable.2.2.2.1 stateC stateD geometry_filter date_range_filter
     cloud_cover_filter rfl rfl rfl rfl,
   filters_immutable.2.2.2.2.1 stateD stateE combined_filter rfl rfl⟩

/-- Claim C9: on an empty features list the ID extraction yields the empty
list and indexing its first element faults (none models the IndexError);
with at least one feature the first element exists. -/
theorem image_ids_empty_index (features : List Json) (h : features ≠ []) :
    image_ids ([] : List Json) = [] ∧
    (image_ids ([] : List Json)).get? 0 = none ∧
    ∃ v, (image_ids features).get? 0 = some v := by
  refine ⟨rfl, rfl, ?_⟩
  cases features with
  | nil => exact absurd rfl h
  | cons f rest => exact ⟨Json.lookup f "id", rfl⟩

/-- Witness for claim C9 at a singleton features list. -/
theorem image_ids_empty_index_witness :
    image_ids ([] : List Json) = [] ∧
    (image_ids ([] : List Json)).get? 0 = none ∧
    ∃ v, (image_ids [Json.obj [("id", Json.str "20160831_212705_0c43")]]).get? 0 =
      some v :=
  image_ids_empty_index [Json.obj [("id", Json.str "20160831_212705_0c43")]]
    (List.cons_ne_nil _ _)

/-- Claim C10: the cloud-cover predicate serializes as a RangeFilter on the
cloud_cover field whose config is the single bound lte 0.5, and under the
numeric-range semantics a value of exactly 0.5 satisfies it — the boundary
is inclusive. -/
theorem cloud_cover_filter_inclusive_boundary :
    Json.lookup cloud_cover_filter "type" = some (Json.str "RangeFilter") ∧
    Json.lookup cloud_cover_filter "field_name" = some (Json.str "cloud_cover") ∧
    Json.lookup cloud_cover_filter "config" =
      some (Json.obj [("lte", Json.num 0.5)]) ∧
    rangeSatisfies (Json.obj [("lte", Json.num 0.5)]) 0.5 = true := by
  refine ⟨rfl, rfl, rfl, ?_⟩
  simp [rangeSatisfies, Json.lookup, lookupField]
